import Mathlib

/-!
Verification of the User CRUD contract of the Basic-CRUD-with-GORM repository.

The store layer is embedded from `src/handlers/handers_test.go`
(`MockUserQueries`, the in-repository implementation of the store
capability set): a Go map `map[uint]*models.User` becomes an association
list with natural-number keys, Go `error` results become `Except StoreErr`,
and the distinguished `gorm.ErrRecordNotFound` sentinel becomes
`StoreErr.recordNotFound` as opposed to `StoreErr.generic` (the
`m.returnErr` failure mode of the mock).

The HTTP handler layer (`gorm/handlers`) is not present in the source
tree, so the handler functions below are modelled from the specification
(section 4.2's request/response table and the strict Create validation
order); each such definition carries a `Modelled from the spec:` comment.
Handlers additionally return the list of store operations they invoked,
so that non-invocation and ordering claims are statable.
-/

/-- A User record: `gorm.Model.ID` plus the `Name` and `Email` fields of
`models.User`. -/
structure User where
  id : Nat
  name : String
  email : String
  deriving Repr, DecidableEq

/-- Store error kinds: `gorm.ErrRecordNotFound` versus any other error
(the mock's `m.returnErr`, e.g. `errors.New("database failure")`). -/
inductive StoreErr where
  | recordNotFound
  | generic
  deriving Repr, DecidableEq

/-- State of `MockUserQueries`: the `users` map (as an association list),
whether `returnErr` is set, and the `existingUser` override used by the
duplicate-email test. -/
structure MockUserQueries where
  users : List (Nat × User)
  returnErr : Bool
  existingUser : Option User
  deriving Repr, DecidableEq

/-- Go map read `m.users[id]` (with the `exists` flag as `Option`). -/
def mapLookup : List (Nat × User) → Nat → Option User
  | [], _ => none
  | (k, v) :: t, id => if k = id then some v else mapLookup t id

/-- Go map write `m.users[id] = u`: replace the binding if the key is
present, otherwise add it. -/
def mapInsert : List (Nat × User) → Nat → User → List (Nat × User)
  | [], id, u => [(id, u)]
  | (k, v) :: t, id, u =>
    if k = id then (id, u) :: t else (k, v) :: mapInsert t id u

/-- Go `delete(m.users, id)`. -/
def mapDelete : List (Nat × User) → Nat → List (Nat × User)
  | [], _ => []
  | (k, v) :: t, id =>
    if k = id then mapDelete t id else (k, v) :: mapDelete t id

/-- `MockUserQueries.GetUsers`: generic error when `returnErr` is set,
otherwise the values of the map. -/
def MockUserQueries.getUsers (m : MockUserQueries) : Except StoreErr (List User) :=
  if m.returnErr then .error .generic
  else .ok (m.users.map Prod.snd)

/-- `MockUserQueries.GetUserByID`: generic error when `returnErr` is set,
otherwise map lookup, `ErrRecordNotFound` when absent. -/
def MockUserQueries.getUserByID (m : MockUserQueries) (id : Nat) : Except StoreErr User :=
  if m.returnErr then .error .generic
  else
    match mapLookup m.users id with
    | some u => .ok u
    | none => .error .recordNotFound

/-- The loop `for _, u := range m.users { if u.Email == email ... }`. -/
def findByEmail : List (Nat × User) → String → Option User
  | [], _ => none
  | (_, v) :: t, email => if v.email = email then some v else findByEmail t email

/-- `MockUserQueries.GetUserByEmail`: note the source does NOT consult
`returnErr` here; it returns `existingUser` if set, else scans the map,
else `ErrRecordNotFound`. -/
def MockUserQueries.getUserByEmail (m : MockUserQueries) (email : String) :
    Except StoreErr User :=
  match m.existingUser with
  | some u => .ok u
  | none =>
    match findByEmail m.users email with
    | some u => .ok u
    | none => .error .recordNotFound

/-- `MockUserQueries.CreateUser`: generic error when `returnErr` is set;
otherwise sets `user.ID = uint(len(m.users) + 1)` and stores the user
under that key. Returns the updated state and the user as mutated. -/
def MockUserQueries.createUser (m : MockUserQueries) (u : User) :
    Except StoreErr (MockUserQueries × User) :=
  if m.returnErr then .error .generic
  else
    let assigned : User := { u with id := m.users.length + 1 }
    .ok ({ m with users := mapInsert m.users assigned.id assigned }, assigned)

/-- `MockUserQueries.UpdateUser`: generic error when `returnErr` is set;
`ErrRecordNotFound` when `user.ID` is absent; otherwise
`m.users[user.ID] = user` (full-record replacement). -/
def MockUserQueries.updateUser (m : MockUserQueries) (u : User) :
    Except StoreErr MockUserQueries :=
  if m.returnErr then .error .generic
  else if (mapLookup m.users u.id).isSome then
    .ok { m with users := mapInsert m.users u.id u }
  else .error .recordNotFound

/-- `MockUserQueries.DeleteUser`: generic error when `returnErr` is set;
`ErrRecordNotFound` when `id` is absent; otherwise `delete(m.users, id)`. -/
def MockUserQueries.deleteUser (m : MockUserQueries) (id : Nat) :
    Except StoreErr MockUserQueries :=
  if m.returnErr then .error .generic
  else if (mapLookup m.users id).isSome then
    .ok { m with users := mapDelete m.users id }
  else .error .recordNotFound

/-- An HTTP response: status code and body text. -/
structure HttpResponse where
  status : Nat
  body : String
  deriving Repr, DecidableEq

/-- Which store operation a handler invoked (recorded in order). -/
inductive StoreOp where
  | opGetUsers
  | opGetUserByID
  | opGetUserByEmail
  | opCreateUser
  | opUpdateUser
  | opDeleteUser
  deriving Repr, DecidableEq

/-- Decoded JSON body for Create/Update: a Go-decoded `{name, email}`
pair in which a missing JSON field decodes to the empty string. -/
structure CreateBody where
  name : String
  email : String
  deriving Repr, DecidableEq

def digitVal (c : Char) : Option Nat :=
  if c.isDigit then some (c.toNat - 48) else none

def parseNatChars : List Char → Nat → Option Nat
  | [], acc => some acc
  | c :: t, acc =>
    match digitVal c with
    | some d => parseNatChars t (acc * 10 + d)
    | none => none

/-- Modelled from the spec: the handlers' path-parameter parsing is in the
missing `gorm/handlers` package; section 4.2 requires the path `id` to
"parse as a positive integer", otherwise 400 "Invalid ID". -/
def parseID (s : String) : Option Nat :=
  match s.data with
  | [] => none
  | l =>
    match parseNatChars l 0 with
    | some n => if 0 < n then some n else none
    | none => none

def renderUser (u : User) : String :=
  "\x7b\"id\":" ++ toString u.id ++ ",\"name\":\"" ++ u.name ++
    "\",\"email\":\"" ++ u.email ++ "\"\x7d"

def renderUserList (us : List User) : String :=
  "[" ++ String.intercalate "," (us.map renderUser) ++ "]"

/-- Modelled from the spec: the List handler (`Handlers.GetUsers`, missing
from the source tree). Section 4.2: success 200 with a JSON array; store
error 500. -/
def Handlers.getUsersH (m : MockUserQueries) : HttpResponse × List StoreOp :=
  match m.getUsers with
  | .ok us => (⟨200, renderUserList us⟩, [.opGetUsers])
  | .error _ => (⟨500, "Internal Server Error"⟩, [.opGetUsers])

/-- Modelled from the spec: the Get-by-ID handler (`Handlers.GetUserByID`,
missing from the source tree). Section 4.2: unparsable id 400 "Invalid ID"
(no store call); NotFound 404 "User not found"; other store error 500. -/
def Handlers.getUserByIDH (m : MockUserQueries) (idParam : String) :
    HttpResponse × List StoreOp :=
  match parseID idParam with
  | none => (⟨400, "Invalid ID"⟩, [])
  | some id =>
    match m.getUserByID id with
    | .ok u => (⟨200, renderUser u⟩, [.opGetUserByID])
    | .error .recordNotFound => (⟨404, "User not found"⟩, [.opGetUserByID])
    | .error .generic => (⟨500, "Internal Server Error"⟩, [.opGetUserByID])

/-- Modelled from the spec: the Create handler (`Handlers.CreateUser`,
missing from the source tree). Section 4.2 with the strict order:
(1) decode/shape check — failure or empty field gives 400
"Missing Required Fields" with no store call; (2) uniqueness via
`getUserByEmail` — a User gives 409 "(email) already exists";
(3) persistence via `createUser` — success 201, store error 500. -/
def Handlers.createUserH (m : MockUserQueries) (body : Option CreateBody) :
    HttpResponse × MockUserQueries × List StoreOp :=
  match body with
  | none => (⟨400, "Missing Required Fields"⟩, m, [])
  | some b =>
    if b.name = "" ∨ b.email = "" then
      (⟨400, "Missing Required Fields"⟩, m, [])
    else
      match m.getUserByEmail b.email with
      | .ok _ =>
        (⟨409, b.email ++ " already exists"⟩, m, [.opGetUserByEmail])
      | .error .generic =>
        (⟨500, "Internal Server Error"⟩, m, [.opGetUserByEmail])
      | .error .recordNotFound =>
        match m.createUser ⟨0, b.name, b.email⟩ with
        | .ok (m2, u) =>
          (⟨201, renderUser u⟩, m2, [.opGetUserByEmail, .opCreateUser])
        | .error _ =>
          (⟨500, "Internal Server Error"⟩, m, [.opGetUserByEmail, .opCreateUser])

/-- Modelled from the spec: the Update handler (`Handlers.UpdateUser`,
missing from the source tree). Section 4.2: unparsable id 400 "Invalid ID"
(no store call); otherwise the decoded record with the path id is passed
to `updateUser`; NotFound 404; store error 500; success 200 with the
updated user. -/
def Handlers.updateUserH (m : MockUserQueries) (idParam : String) (b : CreateBody) :
    HttpResponse × MockUserQueries × List StoreOp :=
  match parseID idParam with
  | none => (⟨400, "Invalid ID"⟩, m, [])
  | some id =>
    let u : User := ⟨id, b.name, b.email⟩
    match m.updateUser u with
    | .ok m2 => (⟨200, renderUser u⟩, m2, [.opUpdateUser])
    | .error .recordNotFound => (⟨404, "User not found"⟩, m, [.opUpdateUser])
    | .error .generic => (⟨500, "Internal Server Error"⟩, m, [.opUpdateUser])

/-- Modelled from the spec: the Delete handler (`Handlers.DeleteUser`,
missing from the source tree). Section 4.2: unparsable id 400 "Invalid ID"
(no store call); NotFound 404; store error 500; success 200. -/
def Handlers.deleteUserH (m : MockUserQueries) (idParam : String) :
    HttpResponse × MockUserQueries × List StoreOp :=
  match parseID idParam with
  | none => (⟨400, "Invalid ID"⟩, m, [])
  | some id =>
    match m.deleteUser id with
    | .ok m2 => (⟨200, ""⟩, m2, [.opDeleteUser])
    | .error .recordNotFound => (⟨404, "User not found"⟩, m, [.opDeleteUser])
    | .error .generic => (⟨500, "Internal Server Error"⟩, m, [.opDeleteUser])

/-- The shape check of the Create handler: body failed to decode, or has
an empty name or an empty (hence missing) email. -/
def badCreateBody : Option CreateBody → Bool
  | none => true
  | some b => b.name == "" || b.email == ""

theorem mapLookup_mapInsert_self (l : List (Nat × User)) (id : Nat) (u : User) :
    mapLookup (mapInsert l id u) id = some u := by
  induction l with
  | nil => simp [mapInsert, mapLookup]
  | cons p t ih =>
    obtain ⟨k, v⟩ := p
    by_cases hk : k = id
    · simp [mapInsert, hk, mapLookup]
    · simp [mapInsert, hk, mapLookup, ih]

theorem mapLookup_mapInsert_ne (l : List (Nat × User)) (id k : Nat) (u : User)
    (h : k ≠ id) : mapLookup (mapInsert l id u) k = mapLookup l k := by
  induction l with
  | nil => simp [mapInsert, mapLookup, Ne.symm h]
  | cons p t ih =>
    obtain ⟨k2, v⟩ := p
    by_cases hk : k2 = id
    · subst hk; simp [mapInsert, mapLookup, Ne.symm h]
    · simp [mapInsert, hk, mapLookup, ih]

theorem mapLookup_mapDelete_self (l : List (Nat × User)) (id : Nat) :
    mapLookup (mapDelete l id) id = none := by
  induction l with
  | nil => simp [mapDelete, mapLookup]
  | cons p t ih =>
    obtain ⟨k, v⟩ := p
    by_cases hk : k = id
    · simp [mapDelete, hk, ih]
    · simp [mapDelete, hk, mapLookup, ih]

/-- C1: refuted at a concrete run of the store in the source. The claim says
a deleted User's identifier is never reused by a later `createUser`; but the
mock store assigns `id = len(users) + 1`, so after creating a User (assigned
id 1) and deleting id 1, the next `createUser` assigns id 1 again. This run
evaluates the embedded source code on that failing input. -/
theorem c1_deleted_id_reused :
    (do
      let r1 ← MockUserQueries.createUser ⟨[], false, none⟩
        ⟨0, "Alice", "alice@example.com"⟩
      let m2 ← r1.1.deleteUser r1.2.id
      let r3 ← m2.createUser ⟨0, "Bob", "bob@example.com"⟩
      pure (r1.2.id, r3.2.id)) = Except.ok (1, 1) := rfl

/-- C2: for every store state and every Create body that fails to decode or
has an empty name or an empty (missing) email, the Create handler responds
400 "Missing Required Fields", leaves the store unchanged and invokes no
store operation (in particular neither `getUserByEmail` nor `createUser`);
moreover on every Create request the invoked-operations trace is one of
`[]`, `[getUserByEmail]`, `[getUserByEmail, createUser]`, so the shape check
precedes the uniqueness check, which precedes persistence. -/
theorem c2_create_shape_check_first (m : MockUserQueries) (body : Option CreateBody)
    (h : badCreateBody body = true) :
    Handlers.createUserH m body = (⟨400, "Missing Required Fields"⟩, m, []) ∧
    ∀ b2 : Option CreateBody,
      (Handlers.createUserH m b2).2.2 = [] ∨
      (Handlers.createUserH m b2).2.2 = [StoreOp.opGetUserByEmail] ∨
      (Handlers.createUserH m b2).2.2 = [StoreOp.opGetUserByEmail, StoreOp.opCreateUser] := by
  constructor
  · cases body with
    | none => rfl
    | some b =>
      simp only [badCreateBody, Bool.or_eq_true, beq_iff_eq] at h
      simp [Handlers.createUserH, h]
  · intro b2
    cases b2 with
    | none => exact Or.inl rfl
    | some b =>
      by_cases hb : b.name = "" ∨ b.email = ""
      · exact Or.inl (by simp [Handlers.createUserH, hb])
      · simp only [Handlers.createUserH, if_neg hb]
        cases hq : m.getUserByEmail b.email with
        | ok u => simp
        | error e =>
          cases e with
          | recordNotFound =>
            cases hc : m.createUser ⟨0, b.name, b.email⟩ with
            | ok r => obtain ⟨m2, u2⟩ := r; simp
            | error e2 => simp
          | generic => simp

theorem c2_witness :
    badCreateBody (some ⟨"", ""⟩) = true ∧
    Handlers.createUserH ⟨[], false, none⟩ (some ⟨"", ""⟩) =
      (⟨400, "Missing Required Fields"⟩, ⟨[], false, none⟩, []) :=
  ⟨rfl, (c2_create_shape_check_first ⟨[], false, none⟩ (some ⟨"", ""⟩) rfl).1⟩

/-- C3: for every store state and every Create body with non-empty name and
email whose email already belongs to a User (`getUserByEmail` returns a User
rather than NotFound), the Create handler responds 409 with body
"(email) already exists", leaves the store unchanged, and invokes only the
uniqueness lookup — no new record is persisted. -/
theorem c3_duplicate_email_409 (m : MockUserQueries) (b : CreateBody) (u : User)
    (hn : b.name ≠ "") (he : b.email ≠ "")
    (hq : m.getUserByEmail b.email = Except.ok u) :
    Handlers.createUserH m (some b) =
      (⟨409, b.email ++ " already exists"⟩, m, [StoreOp.opGetUserByEmail]) := by
  simp [Handlers.createUserH, hn, he, hq]

theorem c3_witness :
    Handlers.createUserH ⟨[], false, some ⟨0, "", "exists@example.com"⟩⟩
        (some ⟨"Bob", "exists@example.com"⟩) =
      (⟨409, "exists@example.com already exists"⟩,
        ⟨[], false, some ⟨0, "", "exists@example.com"⟩⟩, [StoreOp.opGetUserByEmail]) :=
  c3_duplicate_email_409 _ _ ⟨0, "", "exists@example.com"⟩
    (by decide) (by decide) rfl

/-- C4: for every store state with no Users (and no forced failure),
`getUsers` returns the empty sequence, not an error, and the List handler
responds 200 with body `[]`. -/
theorem c4_empty_store_200_empty_array (m : MockUserQueries)
    (h1 : m.users = []) (h2 : m.returnErr = false) :
    m.getUsers = Except.ok [] ∧
    Handlers.getUsersH m = (⟨200, "[]"⟩, [StoreOp.opGetUsers]) := by
  have hg : m.getUsers = Except.ok [] := by
    simp [MockUserQueries.getUsers, h1, h2]
  refine ⟨hg, ?_⟩
  simp only [Handlers.getUsersH, hg]
  rfl

theorem c4_witness :
    MockUserQueries.getUsers ⟨[], false, none⟩ = Except.ok [] ∧
    Handlers.getUsersH ⟨[], false, none⟩ = (⟨200, "[]"⟩, [StoreOp.opGetUsers]) :=
  c4_empty_store_200_empty_array ⟨[], false, none⟩ rfl rfl

/-- C5: round-trip — for every store state (not in the forced failure mode),
creating a User with non-empty name and email not already present and then
getting by the id the create assigned yields a User with exactly the name
and email that were supplied. -/
theorem c5_create_then_get_roundtrip (m : MockUserQueries) (u : User)
    (hr : m.returnErr = false) (_hn : u.name ≠ "") (_he : u.email ≠ "")
    (_habs : m.getUserByEmail u.email = Except.error StoreErr.recordNotFound) :
    ∃ m2 au,
      m.createUser u = Except.ok (m2, au) ∧
      au.name = u.name ∧ au.email = u.email ∧
      m2.getUserByID au.id = Except.ok au := by
  refine ⟨⟨mapInsert m.users (m.users.length + 1) { u with id := m.users.length + 1 },
          m.returnErr, m.existingUser⟩,
         { u with id := m.users.length + 1 }, ?_, rfl, rfl, ?_⟩
  · simp [MockUserQueries.createUser, hr]
  · simp [MockUserQueries.getUserByID, hr, mapLookup_mapInsert_self]

theorem c5_witness :
    ∃ m2 au,
      MockUserQueries.createUser ⟨[], false, none⟩ ⟨0, "Alice", "alice@example.com"⟩ =
        Except.ok (m2, au) ∧
      au.name = "Alice" ∧ au.email = "alice@example.com" ∧
      m2.getUserByID au.id = Except.ok au :=
  c5_create_then_get_roundtrip ⟨[], false, none⟩ ⟨0, "Alice", "alice@example.com"⟩
    rfl (by decide) (by decide) rfl

/-- C6: for every id that parses as a positive integer but is absent from
the store, the Get-by-ID, Update and Delete handlers each respond 404; and
Delete is not idempotent in the success sense: after a successful Delete of
an id, a second Delete of the same id responds 404, not a different
success or error status. -/
theorem c6_absent_id_404 :
    (∀ (m : MockUserQueries) (s : String) (id : Nat) (b : CreateBody),
      parseID s = some id → m.returnErr = false → mapLookup m.users id = none →
      (Handlers.getUserByIDH m s).1.status = 404 ∧
      (Handlers.updateUserH m s b).1.status = 404 ∧
      (Handlers.deleteUserH m s).1.status = 404) ∧
    (∀ (m : MockUserQueries) (s : String) (id : Nat),
      parseID s = some id → m.returnErr = false →
      (mapLookup m.users id).isSome = true →
      (Handlers.deleteUserH m s).1.status = 200 ∧
      (Handlers.deleteUserH (Handlers.deleteUserH m s).2.1 s).1.status = 404) := by
  constructor
  · intro m s id b hp hr hl
    refine ⟨?_, ?_, ?_⟩
    · simp [Handlers.getUserByIDH, hp, MockUserQueries.getUserByID, hr, hl]
    · simp [Handlers.updateUserH, hp, MockUserQueries.updateUser, hr, hl]
    · simp [Handlers.deleteUserH, hp, MockUserQueries.deleteUser, hr, hl]
  · intro m s id hp hr hl
    have h1 : m.deleteUser id = Except.ok { m with users := mapDelete m.users id } := by
      simp [MockUserQueries.deleteUser, hr, hl]
    have h2 : (Handlers.deleteUserH m s).2.1 = { m with users := mapDelete m.users id } := by
      simp [Handlers.deleteUserH, hp, h1]
    refine ⟨?_, ?_⟩
    · simp [Handlers.deleteUserH, hp, h1]
    · rw [h2]
      simp [Handlers.deleteUserH, hp, MockUserQueries.deleteUser, hr,
        mapLookup_mapDelete_self]

theorem c6_witness :
    (Handlers.getUserByIDH ⟨[], false, none⟩ "999").1.status = 404 ∧
    (Handlers.deleteUserH ⟨[(1, ⟨1, "Test User", "test@example.com"⟩)], false, none⟩
        "1").1.status = 200 ∧
    (Handlers.deleteUserH
        (Handlers.deleteUserH ⟨[(1, ⟨1, "Test User", "test@example.com"⟩)], false, none⟩
          "1").2.1 "1").1.status = 404 :=
  ⟨(c6_absent_id_404.1 ⟨[], false, none⟩ "999" 999 ⟨"n", "e"⟩ rfl rfl rfl).1,
   (c6_absent_id_404.2 ⟨[(1, ⟨1, "Test User", "test@example.com"⟩)], false, none⟩
      "1" 1 rfl rfl rfl).1,
   (c6_absent_id_404.2 ⟨[(1, ⟨1, "Test User", "test@example.com"⟩)], false, none⟩
      "1" 1 rfl rfl rfl).2⟩

/-- C7: for every path id value that does not parse as a positive integer,
the Get-by-ID, Update and Delete handlers each respond 400 with body
"Invalid ID", leave the store unchanged and invoke no store operation. -/
theorem c7_invalid_id_400 (m : MockUserQueries) (s : String) (b : CreateBody)
    (h : parseID s = none) :
    Handlers.getUserByIDH m s = (⟨400, "Invalid ID"⟩, []) ∧
    Handlers.updateUserH m s b = (⟨400, "Invalid ID"⟩, m, []) ∧
    Handlers.deleteUserH m s = (⟨400, "Invalid ID"⟩, m, []) := by
  refine ⟨?_, ?_, ?_⟩
  · simp [Handlers.getUserByIDH, h]
  · simp [Handlers.updateUserH, h]
  · simp [Handlers.deleteUserH, h]

theorem c7_witness :
    Handlers.getUserByIDH ⟨[], false, none⟩ "invalid" = (⟨400, "Invalid ID"⟩, []) ∧
    Handlers.updateUserH ⟨[], false, none⟩ "invalid" ⟨"New Name", ""⟩ =
      (⟨400, "Invalid ID"⟩, ⟨[], false, none⟩, []) ∧
    Handlers.deleteUserH ⟨[], false, none⟩ "invalid" =
      (⟨400, "Invalid ID"⟩, ⟨[], false, none⟩, []) :=
  c7_invalid_id_400 ⟨[], false, none⟩ "invalid" ⟨"New Name", ""⟩ rfl

/-- C8: generic (non-NotFound) store failures map to 500 and nothing else:
with the store in the forced generic-failure mode, the List handler responds
500; Get-by-ID, Update and Delete (with a parseable id) respond 500; and a
well-formed Create whose uniqueness lookup finds no existing email responds
500 when persistence fails — never 400, 404 or a success status. -/
theorem c8_generic_error_500 :
    (∀ m : MockUserQueries, m.returnErr = true →
      Handlers.getUsersH m = (⟨500, "Internal Server Error"⟩, [StoreOp.opGetUsers])) ∧
    (∀ (m : MockUserQueries) (s : String) (id : Nat) (b : CreateBody),
      m.returnErr = true → parseID s = some id →
      (Handlers.getUserByIDH m s).1 = ⟨500, "Internal Server Error"⟩ ∧
      (Handlers.updateUserH m s b).1 = ⟨500, "Internal Server Error"⟩ ∧
      (Handlers.deleteUserH m s).1 = ⟨500, "Internal Server Error"⟩) ∧
    (∀ (m : MockUserQueries) (b : CreateBody),
      m.returnErr = true → b.name ≠ "" → b.email ≠ "" →
      m.getUserByEmail b.email = Except.error StoreErr.recordNotFound →
      (Handlers.createUserH m (some b)).1 = ⟨500, "Internal Server Error"⟩) := by
  refine ⟨?_, ?_, ?_⟩
  · intro m hr
    simp [Handlers.getUsersH, MockUserQueries.getUsers, hr]
  · intro m s id b hr hp
    refine ⟨?_, ?_, ?_⟩
    · simp [Handlers.getUserByIDH, hp, MockUserQueries.getUserByID, hr]
    · simp [Handlers.updateUserH, hp, MockUserQueries.updateUser, hr]
    · simp [Handlers.deleteUserH, hp, MockUserQueries.deleteUser, hr]
  · intro m b hr hn he hq
    simp [Handlers.createUserH, hn, he, hq, MockUserQueries.createUser, hr]

theorem c8_witness :
    Handlers.getUsersH ⟨[], true, none⟩ =
      (⟨500, "Internal Server Error"⟩, [StoreOp.opGetUsers]) ∧
    (Handlers.deleteUserH ⟨[], true, none⟩ "1").1 = ⟨500, "Internal Server Error"⟩ :=
  ⟨c8_generic_error_500.1 ⟨[], true, none⟩ rfl,
   (c8_generic_error_500.2.1 ⟨[], true, none⟩ "1" 1 ⟨"n", "e"⟩ rfl rfl).2.2⟩

/-- C9: `updateUser` replaces the entire stored record for the given id with
the supplied record: whenever the id exists (and the store is not in the
forced failure mode), the update succeeds, the stored record at that id
afterwards equals the supplied record field by field (so a zero-valued input
field overwrites the stored value), and every other id's record is
unchanged. -/
theorem c9_update_replaces_full_record (m : MockUserQueries) (u : User)
    (hr : m.returnErr = false) (hl : (mapLookup m.users u.id).isSome = true) :
    ∃ m2, m.updateUser u = Except.ok m2 ∧
      mapLookup m2.users u.id = some u ∧
      ∀ k, k ≠ u.id → mapLookup m2.users k = mapLookup m.users k := by
  refine ⟨{ m with users := mapInsert m.users u.id u }, ?_, ?_, ?_⟩
  · simp [MockUserQueries.updateUser, hr, hl]
  · simp [mapLookup_mapInsert_self]
  · intro k hk
    exact mapLookup_mapInsert_ne m.users u.id k u hk

theorem c9_witness :
    ∃ m2,
      MockUserQueries.updateUser
          ⟨[(1, ⟨1, "Test User", "test@example.com"⟩)], false, none⟩
          ⟨1, "New Name", "new@example.com"⟩ = Except.ok m2 ∧
      mapLookup m2.users 1 = some ⟨1, "New Name", "new@example.com"⟩ ∧
      ∀ k, k ≠ 1 → mapLookup m2.users k =
        mapLookup [(1, ⟨1, "Test User", "test@example.com"⟩)] k :=
  c9_update_replaces_full_record
    ⟨[(1, ⟨1, "Test User", "test@example.com"⟩)], false, none⟩
    ⟨1, "New Name", "new@example.com"⟩ rfl rfl

/-- C10: `getUserByEmail` never returns a generic store error: for every
store state — including the forced generic-failure mode, in which every
other operation (`getUsers`, `getUserByID`, `createUser`, `updateUser`,
`deleteUser`) returns the generic error before any existence check — it
returns either a matching User or NotFound; consequently no Create request
ever produces a 500 in which only the uniqueness pre-check ran. -/
theorem c10_getUserByEmail_never_generic :
    (∀ (m : MockUserQueries) (e : String),
      (∃ u, m.getUserByEmail e = Except.ok u) ∨
      m.getUserByEmail e = Except.error StoreErr.recordNotFound) ∧
    (∀ m : MockUserQueries, m.returnErr = true →
      m.getUsers = Except.error StoreErr.generic ∧
      (∀ id, m.getUserByID id = Except.error StoreErr.generic) ∧
      (∀ u, m.createUser u = Except.error StoreErr.generic) ∧
      (∀ u, m.updateUser u = Except.error StoreErr.generic) ∧
      (∀ id, m.deleteUser id = Except.error StoreErr.generic)) ∧
    (∀ (m : MockUserQueries) (body : Option CreateBody),
      ¬((Handlers.createUserH m body).1.status = 500 ∧
        (Handlers.createUserH m body).2.2 = [StoreOp.opGetUserByEmail])) := by
  have hmail : ∀ (m : MockUserQueries) (e : String),
      (∃ u, m.getUserByEmail e = Except.ok u) ∨
      m.getUserByEmail e = Except.error StoreErr.recordNotFound := by
    intro m e
    rcases hex : m.existingUser with _ | u
    · rcases hf : findByEmail m.users e with _ | u
      · exact Or.inr (by simp [MockUserQueries.getUserByEmail, hex, hf])
      · exact Or.inl ⟨u, by simp [MockUserQueries.getUserByEmail, hex, hf]⟩
    · exact Or.inl ⟨u, by simp [MockUserQueries.getUserByEmail, hex]⟩
  refine ⟨hmail, ?_, ?_⟩
  · intro m hr
    refine ⟨?_, ?_, ?_, ?_, ?_⟩
    · simp [MockUserQueries.getUsers, hr]
    · intro id; simp [MockUserQueries.getUserByID, hr]
    · intro u; simp [MockUserQueries.createUser, hr]
    · intro u; simp [MockUserQueries.updateUser, hr]
    · intro id; simp [MockUserQueries.deleteUser, hr]
  · intro m body
    rintro ⟨h500, htr⟩
    cases body with
    | none => simp [Handlers.createUserH] at h500
    | some b =>
      by_cases hb : b.name = "" ∨ b.email = ""
      · simp [Handlers.createUserH, hb] at h500
      · rcases hmail m b.email with ⟨u, hq⟩ | hq
        · simp [Handlers.createUserH, hb, hq] at h500
        · simp [Handlers.createUserH, hb, hq] at htr
          cases hc : m.createUser ⟨0, b.name, b.email⟩ with
          | ok r => simp [hc] at htr
          | error e2 => simp [hc] at htr

theorem c10_witness :
    ((∃ u, MockUserQueries.getUserByEmail ⟨[], true, none⟩ "x@example.com" =
        Except.ok u) ∨
      MockUserQueries.getUserByEmail ⟨[], true, none⟩ "x@example.com" =
        Except.error StoreErr.recordNotFound) ∧
    MockUserQueries.getUsers ⟨[], true, none⟩ = Except.error StoreErr.generic :=
  ⟨c10_getUserByEmail_never_generic.1 ⟨[], true, none⟩ "x@example.com",
   (c10_getUserByEmail_never_generic.2.1 ⟨[], true, none⟩ rfl).1⟩
